import Mathlib

/-!
Shallow embedding of the beehive backend core (TypeScript/Express/Prisma) in
Lean 4: the data model, the DAO layer, the services, the controllers, the
authentication and validation middlewares, and the credential utilities,
translated function by function from the source.  External collaborators
(bcrypt, the jsonwebtoken library, and the MongoDB sort executed by Prisma)
are passed in as explicit function parameters; everything the repository's own
code computes is modelled concretely.
-/

deriving instance DecidableEq for Except

namespace Beehive

/-- Result of the JavaScript expression `Math.ceil(a / b)` on nonnegative
integers: finite for `b > 0`, `Infinity` for `a > 0, b = 0`, `NaN` for `0/0`. -/
inductive JsNum where
  | num (n : Nat)
  | posInf
  | nan
deriving DecidableEq, Repr

/-- Ceiling division on naturals, the value of `Math.ceil(a / b)` when `b > 0`. -/
def ceilNat (a b : Nat) : Nat := (a + b - 1) / b

/-- `Math.ceil(a / b)` with JavaScript divide-by-zero semantics. -/
def jsCeilDiv (a b : Nat) : JsNum :=
  if b = 0 then (if a = 0 then JsNum.nan else JsNum.posInf)
  else JsNum.num (ceilNat a b)

/-- One entry of the field-error list built by the validation middleware:
`{ field: e.path.join("."), message: e.message, code: e.code }`. -/
structure FieldError where
  field : String
  message : String
  code : String
deriving DecidableEq, Repr

/-- The `ApiError` subclasses of `src/errors/error-types.ts`, as a tagged sum.
`badRequest` carries the optional `errors` list (empty when absent). -/
inductive ApiErr where
  | notFound (message : String)
  | badRequest (message : String) (errors : List FieldError)
  | unauthorized (message : String)
  | forbidden (message : String)
  | conflict (message : String)
deriving DecidableEq, Repr

/-- A thrown value: either one of the typed `ApiError`s or a plain
JavaScript `Error` (as thrown by `hashPassword` and `signToken`). -/
inductive Thrown where
  | api (e : ApiErr)
  | jsError (message : String)
deriving DecidableEq, Repr

namespace ErrorMessages

def USER_NOT_FOUND : String := "User not found."
def INVALID_CREDENTIALS : String := "Invalid email or password. Please try again."
def EMAIL_ALREADY_EXISTS : String := "An account with this email address already exists."
def UNAUTHENTICATED : String := "Not authenticated. Please log in to access this resource."
def UNAUTHORIZED_ACTION : String := "You are not authorized to perform this action."
def TOKEN_INVALID : String := "Authentication token is invalid, malformed, or has expired."
def USER_FOR_TOKEN_NOT_FOUND : String := "The user associated with this token no longer exists."
def BOOK_NOT_FOUND : String := "Book not found."
def AUTHOR_NOT_FOUND : String := "Author not found."
def ITEM_ALREADY_IN_FAVORITES (item : String) : String :=
  item ++ " is already in your favorites."
def ITEM_NOT_IN_FAVORITES (item : String) : String :=
  item ++ " is not in your favorites to remove."
def ISBN_ALREADY_EXISTS : String := "ISBN already exists."

end ErrorMessages

def DEFAULT_PAGE_NUMBER : Nat := 1
def DEFAULT_PAGE_LIMIT : Nat := 10

/-- Prisma `User` model (timestamps as naturals). -/
structure User where
  id : String
  email : String
  password : String
  name : Option String
  createdAt : Nat
  updatedAt : Nat
  favoriteAuthorIds : List String
  favoriteBookIds : List String
deriving DecidableEq, Repr

/-- Prisma `Author` model. -/
structure Author where
  id : String
  name : String
  bio : Option String
  createdAt : Nat
  updatedAt : Nat
  favoritedByIds : List String
  createdById : String
deriving DecidableEq, Repr

/-- Prisma `Book` model; `authorIds` stands for the `BookAuthor` join rows. -/
structure Book where
  id : String
  title : String
  isbn : Option String
  publishedDate : Option Nat
  createdAt : Nat
  updatedAt : Nat
  favoritedByIds : List String
  createdById : String
  authorIds : List String
deriving DecidableEq, Repr

/-- The MongoDB database reachable through Prisma. -/
structure Store where
  users : List User
  authors : List Author
  books : List Book
deriving DecidableEq, Repr

/-- Split a character list at every occurrence of `sep`, keeping empty
segments — the semantics of JavaScript `String.prototype.split` with a
one-character separator. -/
def splitCharAux (sep : Char) : List Char → List (List Char)
  | [] => [[]]
  | c :: cs =>
    let r := splitCharAux sep cs
    if c = sep then [] :: r
    else
      match r with
      | [] => [[c]]
      | g :: gs => (c :: g) :: gs

/-- JavaScript `s.split(sep)` for a one-character separator. -/
def jsSplit (sep : Char) (s : String) : List String :=
  (splitCharAux sep s.data).map (fun l => String.mk l)

/-- JavaScript `s.startsWith(pre)`. -/
def jsStartsWith (s pre : String) : Bool := pre.data.isPrefixOf s.data

/-- JavaScript `s.toLowerCase()` (ASCII, which covers the embedded data). -/
def jsToLower (s : String) : String := String.mk (s.data.map Char.toLower)

/-- Lexicographic character-list comparison, the model of the string ordering
applied by the database when sorting. -/
def lexLt : List Char → List Char → Bool
  | [], [] => false
  | [], _ :: _ => true
  | _ :: _, [] => false
  | a :: as, b :: bs => if a < b then true else if b < a then false else lexLt as bs

/-- Case-insensitive substring test, the model of Prisma
`{ contains: q, mode: "insensitive" }`. -/
def containsInsensitive (hay q : String) : Bool :=
  decide (List.IsInfix (jsToLower q).toList (jsToLower hay).toList)


/-! ## DAO layer -/

namespace UserDao

/-- `UserDao.findUserByEmail`: empty email short-circuits to null, otherwise a
`findUnique` on the lowercased email. -/
def findUserByEmail (s : Store) (email : String) : Option User :=
  if email.isEmpty then none
  else s.users.find? (fun u => u.email == jsToLower email)

/-- `UserDao.findUserById`: empty id short-circuits to null. -/
def findUserById (s : Store) (id : String) : Option User :=
  if id.isEmpty then none
  else s.users.find? (fun u => u.id == id)

/-- `UserDao.addAuthorToFavorites`: `update` with a `push` on
`favoriteAuthorIds` for the (known-existing) user row. -/
def addAuthorToFavorites (u : User) (authorId : String) : User :=
  { u with favoriteAuthorIds := u.favoriteAuthorIds ++ [authorId] }

/-- `UserDao.removeAuthorFromFavorites`: `set` of the filtered id list. -/
def removeAuthorFromFavorites (u : User) (authorId : String) : User :=
  { u with favoriteAuthorIds := u.favoriteAuthorIds.filter (fun id => id != authorId) }

end UserDao

/-- `prisma.user.findUnique({ where: { id } })` as called directly by
`FavoriteService` (no empty-id guard there). -/
def prismaFindUserById (s : Store) (id : String) : Option User :=
  s.users.find? (fun u => u.id == id)

namespace AuthorDao

/-- `AuthorDao.findAuthorById`: empty id short-circuits to null. -/
def findAuthorById (s : Store) (id : String) : Option Author :=
  if id.isEmpty then none
  else s.authors.find? (fun a => a.id == id)

end AuthorDao

/-- Insertion into a list sorted by `le`. -/
def insertLe {α : Type} (le : α → α → Bool) (x : α) : List α → List α
  | [] => [x]
  | y :: ys => if le x y then x :: y :: ys else y :: insertLe le x ys

/-- Insertion sort, modelling the `orderBy` executed by the database. -/
def sortLe {α : Type} (le : α → α → Bool) : List α → List α
  | [] => []
  | x :: xs => insertLe le x (sortLe le xs)

namespace AuthorDao

/-- `AuthorDao.findAuthorsByName`: empty name short-circuits to `[]`;
otherwise a case-insensitive contains filter, optionally scoped to a creator,
sorted by name ascending, first `limit` rows. -/
def findAuthorsByName (s : Store) (name : String) (createdById : Option String)
    (limit : Nat := 10) : List Author :=
  if name.isEmpty then []
  else
    let base := fun (a : Author) => containsInsensitive a.name name
    let flt := fun (a : Author) =>
      base a && (match createdById with
        | some cid => if cid.isEmpty then true else a.createdById == cid
        | none => true)
    ((sortLe (fun a b => !(lexLt b.name.data a.name.data)) (s.authors.filter flt)).take limit)

end AuthorDao

namespace BookDao

/-- A book row decorated with the computed `isFavorite` flag
(`undefined` modelled as `none`). -/
structure BookWithFav where
  book : Book
  isFavorite : Option Bool
deriving DecidableEq, Repr

/-- `BookDao.findBookById`: empty id short-circuits to null; otherwise a
`findUnique`, decorated with `isFavorite` when a (truthy) requesting user id
was supplied. -/
def findBookById (s : Store) (id : String) (requestingUserId : Option String) :
    Option BookWithFav :=
  if id.isEmpty then none
  else
    match s.books.find? (fun b => b.id == id) with
    | none => none
    | some b =>
      match requestingUserId with
      | some uid =>
        if uid.isEmpty then some ⟨b, none⟩
        else some ⟨b, some (b.favoritedByIds.contains uid)⟩
      | none => some ⟨b, none⟩

/-- `BookDao.findBookByIsbn`: empty isbn short-circuits to null. -/
def findBookByIsbn (s : Store) (isbn : String) : Option Book :=
  if isbn.isEmpty then none
  else s.books.find? (fun b => b.isbn == some isbn)

/-- `BookDao.findBooksByTitle`: empty title short-circuits to `[]`. -/
def findBooksByTitle (s : Store) (title : String) (createdById : Option String)
    (limit : Nat := 10) : List Book :=
  if title.isEmpty then []
  else
    let flt := fun (b : Book) =>
      containsInsensitive b.title title &&
        (match createdById with
          | some cid => if cid.isEmpty then true else b.createdById == cid
          | none => true)
    ((sortLe (fun a b => !(lexLt b.title.data a.title.data)) (s.books.filter flt)).take limit)

end BookDao

/-! ## Listing engine: `findAllAuthors` / `findAllBooks` -/

/-- A sort direction, the `"asc" | "desc"` strings of the `orderBy` clause. -/
inductive SortDir where
  | asc
  | desc
deriving DecidableEq, Repr

/-- The scalar fields of the Prisma `Author` model,
`Object.keys(prisma.author.fields)`. -/
def authorScalarFields : List String :=
  ["id", "name", "bio", "createdAt", "updatedAt", "favoritedByIds", "createdById"]

/-- The scalar fields of the Prisma `Book` model,
`Object.keys(prisma.book.fields)`. -/
def bookScalarFields : List String :=
  ["id", "title", "isbn", "publishedDate", "createdAt", "updatedAt",
   "favoritedByIds", "createdById"]

/-- The `orderBy` selection logic shared by `AuthorDao.findAllAuthors` and
`BookDao.findAllBooks`: split `sortBy` on `":"`, accept the first two parts
when the field is nonempty, allow-listed, and the direction is `asc`/`desc`;
otherwise (or when `sortBy` is absent/empty) fall back to `createdAt: desc`. -/
def resolveOrderBy (fields : List String) (sortBy : Option String) : String × SortDir :=
  match sortBy with
  | none => ("createdAt", SortDir.desc)
  | some sb =>
    if sb.isEmpty then ("createdAt", SortDir.desc)
    else
      let parts := jsSplit ':' sb
      let field := parts.getD 0 ""
      let dir := parts.getD 1 ""
      if !field.isEmpty && (dir == "asc" || dir == "desc") && fields.contains field then
        (field, if dir == "asc" then SortDir.asc else SortDir.desc)
      else ("createdAt", SortDir.desc)

/-- The `where` filter of `AuthorDao.findAllAuthors`: optional creator scope
plus an optional case-insensitive OR-search over name and bio. -/
def authorWhere (createdById search : Option String) (a : Author) : Bool :=
  (match createdById with
    | some cid => if cid.isEmpty then true else a.createdById == cid
    | none => true) &&
  (match search with
    | some q =>
      if q.isEmpty then true
      else containsInsensitive a.name q ||
        (match a.bio with
          | some b => containsInsensitive b q
          | none => false)
    | none => true)

namespace AuthorDao

/-- `AuthorDao.findAllAuthors`: resolve the order, filter, hand the sort to the
database (`dbSort`), then `skip`/`take`, and an independent count with the same
filter.  Returns `(authors, totalItems)`. -/
def findAllAuthors (dbSort : String × SortDir → List Author → List Author)
    (s : Store) (page limit : Nat) (sortBy search createdById : Option String) :
    List Author × Nat :=
  let skip := (page - 1) * limit
  let ob := resolveOrderBy authorScalarFields sortBy
  let matching := s.authors.filter (authorWhere createdById search)
  (((dbSort ob matching).drop skip).take limit, matching.length)

end AuthorDao

/-- The `where` filter of `BookDao.findAllBooks`: optional creator scope,
optional author-membership scope, optional case-insensitive OR-search over
title and isbn. -/
def bookWhere (createdById authorId search : Option String) (b : Book) : Bool :=
  (match createdById with
    | some cid => if cid.isEmpty then true else b.createdById == cid
    | none => true) &&
  (match authorId with
    | some aid => if aid.isEmpty then true else b.authorIds.contains aid
    | none => true) &&
  (match search with
    | some q =>
      if q.isEmpty then true
      else containsInsensitive b.title q ||
        (match b.isbn with
          | some i => containsInsensitive i q
          | none => false)
    | none => true)

namespace BookDao

/-- Decorate a book row with `isFavorite`, as the `map` at the end of
`BookDao.findAllBooks` does. -/
def decorateFavorite (requestingUserId : Option String) (b : Book) : BookWithFav :=
  match requestingUserId with
  | some uid =>
    if uid.isEmpty then ⟨b, none⟩ else ⟨b, some (b.favoritedByIds.contains uid)⟩
  | none => ⟨b, none⟩

/-- `BookDao.findAllBooks`: resolve the order, filter, database sort,
`skip`/`take`, decorate with `isFavorite`, and an independent count with the
same filter.  Returns `(books, totalItems)`. -/
def findAllBooks (dbSort : String × SortDir → List Book → List Book)
    (s : Store) (page limit : Nat)
    (sortBy search filterByCreatedById filterByAuthorId requestingUserId :
      Option String) : List BookWithFav × Nat :=
  let skip := (page - 1) * limit
  let ob := resolveOrderBy bookScalarFields sortBy
  let matching := s.books.filter (bookWhere filterByCreatedById filterByAuthorId search)
  ((((dbSort ob matching).drop skip).take limit).map (decorateFavorite requestingUserId),
    matching.length)

end BookDao

/-! ## Pagination metadata -/

/-- The `meta` object returned by every listing operation.  `totalPages` is a
`JsNum` because `Math.ceil(totalItems / limit)` can be `Infinity`/`NaN` in
JavaScript when `limit` is `0`. -/
structure Meta where
  totalItems : Nat
  itemCount : Nat
  itemsPerPage : Nat
  totalPages : JsNum
  currentPage : Nat
deriving DecidableEq, Repr

/-- The pagination query as the services receive it
(`query.page ?? DEFAULT_PAGE_NUMBER`, etc.). -/
structure PaginationQuery where
  page : Option Nat
  limit : Option Nat
  sortBy : Option String
  search : Option String
deriving DecidableEq, Repr

/-! ## Credential utilities (`src/utils/jwt.ts`, `src/utils/password.ts`) -/

/-- The JWT payload signed and verified by `src/utils/jwt.ts`. -/
structure JwtPayload where
  userId : String
  email : String
deriving DecidableEq, Repr

/-- The possible outcomes of the external library call `jwt.verify`:
success, a `TokenExpiredError`, any other `JsonWebTokenError` (malformed
token or wrong signature), or an unexpected error. -/
inductive JwtVerifyOutcome where
  | ok (payload : JwtPayload)
  | expired (message : String)
  | invalid (message : String)
  | unexpected
deriving DecidableEq, Repr

/-- `verifyToken`: return null when the configured secret is missing (falsy);
otherwise call `jwt.verify` inside try/catch, mapping every thrown error —
expired, malformed, wrong signature, or unexpected — to null.  The function is
total: no outcome of the library call escapes as an exception. -/
def verifyToken (jwtVerify : String → String → JwtVerifyOutcome)
    (secret token : String) : Option JwtPayload :=
  if secret.isEmpty then none
  else
    match jwtVerify token secret with
    | JwtVerifyOutcome.ok p => some p
    | JwtVerifyOutcome.expired _ => none
    | JwtVerifyOutcome.invalid _ => none
    | JwtVerifyOutcome.unexpected => none

/-- `signToken`: throw a plain `Error` when the secret is missing, otherwise
sign with the external library (`jwtSign`). -/
def signToken (jwtSign : JwtPayload → String → String) (secret : String)
    (payload : JwtPayload) : Except Thrown String :=
  if secret.isEmpty then Except.error (Thrown.jsError "Token signing failed")
  else Except.ok (jwtSign payload secret)

/-- `hashPassword`: throw on empty plaintext, otherwise bcrypt-hash. -/
def hashPassword (bcryptHash : String → String) (password : String) :
    Except Thrown String :=
  if password.isEmpty then
    Except.error (Thrown.jsError "Password cannot be empty for hashing.")
  else Except.ok (bcryptHash password)

/-- `comparePassword`: false (never a throw) for empty plaintext or empty
digest, otherwise the bcrypt comparison. -/
def comparePassword (bcryptCompare : String → String → Bool)
    (password hashedPassword : String) : Bool :=
  if password.isEmpty || hashedPassword.isEmpty then false
  else bcryptCompare password hashedPassword

/-- The shape returned to callers of register/login:
`{ id, email, name, createdAt, updatedAt }` and nothing else. -/
structure UserOutput where
  id : String
  email : String
  name : String
  createdAt : Nat
  updatedAt : Nat
deriving DecidableEq, Repr

/-- `generateSimpleUserObject`: destructure the password-free user and keep
exactly id, email, name (empty string for null), createdAt, updatedAt. -/
def generateSimpleUserObject (u : User) : UserOutput :=
  { id := u.id, email := u.email, name := u.name.getD "",
    createdAt := u.createdAt, updatedAt := u.updatedAt }

/-- A user with the `password` key removed, the result type of
`omitPasswordFromResult`. -/
structure UserSansPassword where
  id : String
  email : String
  name : Option String
  createdAt : Nat
  updatedAt : Nat
  favoriteAuthorIds : List String
  favoriteBookIds : List String
deriving DecidableEq, Repr

/-- `omitPasswordFromResult`: rest-spread of all fields except `password`. -/
def omitPasswordFromResult (u : User) : UserSansPassword :=
  { id := u.id, email := u.email, name := u.name, createdAt := u.createdAt,
    updatedAt := u.updatedAt, favoriteAuthorIds := u.favoriteAuthorIds,
    favoriteBookIds := u.favoriteBookIds }

/-! ## AuthService -/

namespace AuthService

/-- `AuthService.registerUser`: reject a known email with `BadRequestError`,
hash the password, create the user (the database generates `newId` and the
timestamps), sign a token, and return the simple user object plus token. -/
def registerUser (bcryptHash : String → String)
    (jwtSign : JwtPayload → String → String) (secret : String) (s : Store)
    (newId : String) (now : Nat) (email password : String) (name : Option String) :
    Except Thrown (UserOutput × String) :=
  match UserDao.findUserByEmail s email with
  | some _ => Except.error (Thrown.api (ApiErr.badRequest ErrorMessages.EMAIL_ALREADY_EXISTS []))
  | none =>
    match hashPassword bcryptHash password with
    | Except.error e => Except.error e
    | Except.ok passwordHash =>
      let newUser : User :=
        { id := newId, email := email, password := passwordHash, name := name,
          createdAt := now, updatedAt := now,
          favoriteAuthorIds := [], favoriteBookIds := [] }
      match signToken jwtSign secret { userId := newUser.id, email := newUser.email } with
      | Except.error e => Except.error e
      | Except.ok token => Except.ok (generateSimpleUserObject newUser, token)

/-- `AuthService.loginUser`: unknown email and wrong password both throw
`UnauthorizedError(INVALID_CREDENTIALS)`; on a match, sign a token and return
the simple user object plus token. -/
def loginUser (bcryptCompare : String → String → Bool)
    (jwtSign : JwtPayload → String → String) (secret : String) (s : Store)
    (email password : String) : Except Thrown (UserOutput × String) :=
  match UserDao.findUserByEmail s email with
  | none =>
    Except.error (Thrown.api (ApiErr.unauthorized ErrorMessages.INVALID_CREDENTIALS))
  | some user =>
    if !(comparePassword bcryptCompare password user.password) then
      Except.error (Thrown.api (ApiErr.unauthorized ErrorMessages.INVALID_CREDENTIALS))
    else
      match signToken jwtSign secret { userId := user.id, email := user.email } with
      | Except.error e => Except.error e
      | Except.ok token => Except.ok (generateSimpleUserObject user, token)

/-- `AuthService.getMe`: look the user up by id and return it without the
password key, `NotFoundError` when the account is gone. -/
def getMe (s : Store) (userId : String) : Except Thrown UserSansPassword :=
  match UserDao.findUserById s userId with
  | none =>
    Except.error (Thrown.api (ApiErr.notFound ErrorMessages.USER_FOR_TOKEN_NOT_FOUND))
  | some user => Except.ok (omitPasswordFromResult user)

end AuthService

/-! ## Author and Book fetch-by-id (service + controller) -/

namespace AuthorService

/-- `AuthorService.getAuthorById`: `NotFoundError` when the DAO returns null,
otherwise the author row. -/
def getAuthorById (s : Store) (authorId : String) : Except ApiErr Author :=
  match AuthorDao.findAuthorById s authorId with
  | none => Except.error (ApiErr.notFound ErrorMessages.AUTHOR_NOT_FOUND)
  | some a => Except.ok a

end AuthorService

namespace AuthorController

/-- `AuthorController.getAuthorById`: fetch through the service (which throws
`NotFoundError` for a missing id), then throw `ForbiddenError` when
`createdById` is falsy or differs from the requesting user. -/
def getAuthorById (s : Store) (requestingUserId authorId : String) :
    Except ApiErr Author :=
  match AuthorService.getAuthorById s authorId with
  | Except.error e => Except.error e
  | Except.ok author =>
    if author.createdById.isEmpty || author.createdById != requestingUserId then
      Except.error (ApiErr.forbidden ErrorMessages.UNAUTHORIZED_ACTION)
    else Except.ok author

end AuthorController

namespace BookService

/-- `BookService.getBookById`: `NotFoundError` when the DAO returns null. -/
def getBookById (s : Store) (bookId : String) (requestingUserId : Option String) :
    Except ApiErr BookDao.BookWithFav :=
  match BookDao.findBookById s bookId requestingUserId with
  | none => Except.error (ApiErr.notFound ErrorMessages.BOOK_NOT_FOUND)
  | some b => Except.ok b

end BookService

namespace BookController

/-- `BookController.getBookById`: fetch through the service, then throw
`ForbiddenError` when `createdById` is falsy or differs from the caller. -/
def getBookById (s : Store) (requestingUserId bookId : String) :
    Except ApiErr BookDao.BookWithFav :=
  match BookService.getBookById s bookId (some requestingUserId) with
  | Except.error e => Except.error e
  | Except.ok bf =>
    if bf.book.createdById.isEmpty || bf.book.createdById != requestingUserId then
      Except.error (ApiErr.forbidden ErrorMessages.UNAUTHORIZED_ACTION)
    else Except.ok bf

end BookController

/-! ## Listing services -/

namespace AuthorService

/-- `AuthorService.getAllAuthors`: default page/limit, delegate to the DAO
(scoped to the requesting user), and build the meta object with the
divide-by-zero guard `limit > 0 ? Math.ceil(totalItems / limit) : 0`. -/
def getAllAuthors (dbSort : String × SortDir → List Author → List Author)
    (s : Store) (query : PaginationQuery) (requestingUserId : Option String) :
    List Author × Meta :=
  let page := query.page.getD DEFAULT_PAGE_NUMBER
  let limit := query.limit.getD DEFAULT_PAGE_LIMIT
  let res := AuthorDao.findAllAuthors dbSort s page limit query.sortBy query.search
    requestingUserId
  let totalPages : JsNum :=
    if limit > 0 then JsNum.num (ceilNat res.2 limit) else JsNum.num 0
  (res.1,
    { totalItems := res.2, itemCount := res.1.length, itemsPerPage := limit,
      totalPages := totalPages, currentPage := page })

end AuthorService

namespace BookService

/-- `BookService.getAllBooks`: default page/limit, delegate to the DAO (scoped
to the requesting user, optionally to an author), and build the meta object
with the divide-by-zero guard. -/
def getAllBooks (dbSort : String × SortDir → List Book → List Book)
    (s : Store) (query : PaginationQuery) (authorId : Option String)
    (requestingUserId : Option String) : List BookDao.BookWithFav × Meta :=
  let page := query.page.getD DEFAULT_PAGE_NUMBER
  let limit := query.limit.getD DEFAULT_PAGE_LIMIT
  let res := BookDao.findAllBooks dbSort s page limit query.sortBy query.search
    requestingUserId authorId requestingUserId
  let totalPages : JsNum :=
    if limit > 0 then JsNum.num (ceilNat res.2 limit) else JsNum.num 0
  (res.1,
    { totalItems := res.2, itemCount := res.1.length, itemsPerPage := limit,
      totalPages := totalPages, currentPage := page })

end BookService

/-! ## FavoriteService -/

/-- An author row decorated with the constant `isFavorite: true` flag added by
`getFavoriteAuthors`. -/
structure AuthorWithFav where
  author : Author
  isFavorite : Bool
deriving DecidableEq, Repr

namespace FavoriteService

/-- `FavoriteService.addAuthorToFavorites`: `NotFoundError` for a missing user
or author, `ForbiddenError` when the author is not owned by the user,
`BadRequestError(ITEM_ALREADY_IN_FAVORITES)` when the id is already in the
favorite set, otherwise push the id. -/
def addAuthorToFavorites (s : Store) (userId authorId : String) :
    Except ApiErr User :=
  match prismaFindUserById s userId with
  | none => Except.error (ApiErr.notFound ErrorMessages.USER_NOT_FOUND)
  | some user =>
    match AuthorDao.findAuthorById s authorId with
    | none => Except.error (ApiErr.notFound ErrorMessages.AUTHOR_NOT_FOUND)
    | some author =>
      if author.createdById != userId then
        Except.error (ApiErr.forbidden ErrorMessages.UNAUTHORIZED_ACTION)
      else if user.favoriteAuthorIds.contains authorId then
        Except.error (ApiErr.badRequest
          (ErrorMessages.ITEM_ALREADY_IN_FAVORITES "Author") [])
      else Except.ok (UserDao.addAuthorToFavorites user authorId)

/-- `FavoriteService.removeAuthorFromFavorites`: the same existence and
ownership checks, `BadRequestError(ITEM_NOT_IN_FAVORITES)` when the id is not
in the favorite set, otherwise filter the id out. -/
def removeAuthorFromFavorites (s : Store) (userId authorId : String) :
    Except ApiErr User :=
  match prismaFindUserById s userId with
  | none => Except.error (ApiErr.notFound ErrorMessages.USER_NOT_FOUND)
  | some user =>
    match AuthorDao.findAuthorById s authorId with
    | none => Except.error (ApiErr.notFound ErrorMessages.AUTHOR_NOT_FOUND)
    | some author =>
      if author.createdById != userId then
        Except.error (ApiErr.forbidden ErrorMessages.UNAUTHORIZED_ACTION)
      else if !(user.favoriteAuthorIds.contains authorId) then
        Except.error (ApiErr.badRequest
          (ErrorMessages.ITEM_NOT_IN_FAVORITES "Author") [])
      else Except.ok (UserDao.removeAuthorFromFavorites user authorId)

/-- `FavoriteService.getFavoriteAuthors`: `NotFoundError` for a missing user;
an empty favorite set returns an empty page with `totalPages: 0` without
querying the author store; otherwise filter (`id ∈ favorites` and
`createdById = userId`), paginate, count, and compute
`totalPages = Math.ceil(totalItems / limit)` — with no `limit > 0` guard on
this path, hence a `JsNum`. -/
def getFavoriteAuthors (s : Store) (userId : String) (query : PaginationQuery) :
    Except ApiErr (List AuthorWithFav × Meta) :=
  match prismaFindUserById s userId with
  | none => Except.error (ApiErr.notFound ErrorMessages.USER_NOT_FOUND)
  | some user =>
    let page := query.page.getD DEFAULT_PAGE_NUMBER
    let limit := query.limit.getD DEFAULT_PAGE_LIMIT
    let skip := (page - 1) * limit
    if user.favoriteAuthorIds.isEmpty then
      Except.ok ([],
        { totalItems := 0, itemCount := 0, itemsPerPage := limit,
          totalPages := JsNum.num 0, currentPage := page })
    else
      let matching := s.authors.filter (fun a =>
        user.favoriteAuthorIds.contains a.id && a.createdById == userId)
      let favoriteAuthors := (matching.drop skip).take limit
      let totalFavoriteAuthors := matching.length
      let totalPages := jsCeilDiv totalFavoriteAuthors limit
      Except.ok (favoriteAuthors.map (fun a => ⟨a, true⟩),
        { totalItems := totalFavoriteAuthors, itemCount := favoriteAuthors.length,
          itemsPerPage := limit, totalPages := totalPages, currentPage := page })

end FavoriteService

/-! ## Authentication gate (`protect`) -/

/-- The token extracted from the `Authorization` header: defined (and then
possibly empty) only when the header starts with `"Bearer "`; the middleware
treats an undefined or empty token alike (`if (!token)`), so the model
collapses both to the empty string. -/
def bearerToken (authHeader : Option String) : String :=
  match authHeader with
  | none => ""
  | some h => if jsStartsWith h "Bearer " then (jsSplit ' ' h).getD 1 "" else ""

/-- `protect`: (1) a missing/malformed/empty bearer token fails
`UnauthorizedError(UNAUTHENTICATED)`; (2) a token `verifyToken` maps to null
fails `UnauthorizedError(TOKEN_INVALID)`; (3) a decoded token whose subject id
matches no user fails `UnauthorizedError(USER_FOR_TOKEN_NOT_FOUND)`;
otherwise the resolved user is attached to the request. -/
def protect (jwtVerify : String → String → JwtVerifyOutcome) (secret : String)
    (s : Store) (authHeader : Option String) : Except ApiErr User :=
  let token := bearerToken authHeader
  if token.isEmpty then
    Except.error (ApiErr.unauthorized ErrorMessages.UNAUTHENTICATED)
  else
    match verifyToken jwtVerify secret token with
    | none => Except.error (ApiErr.unauthorized ErrorMessages.TOKEN_INVALID)
    | some payload =>
      match UserDao.findUserById s payload.userId with
      | none =>
        Except.error (ApiErr.unauthorized ErrorMessages.USER_FOR_TOKEN_NOT_FOUND)
      | some currentUser => Except.ok currentUser

/-! ## Validation middleware (`validate`) -/

/-- One issue of a `ZodError`: a path into the parsed `{body, query, params}`
object, a message, and a code. -/
structure ZodIssue where
  path : List String
  message : String
  code : String
deriving DecidableEq, Repr

/-- The three data sections of a request; `α` abstracts the JavaScript values
they hold. -/
structure RequestData (α : Type) where
  body : α
  query : α
  params : α
deriving DecidableEq, Repr

/-- The sections returned by a successful `schema.parseAsync` — each may be
absent (`undefined`) when the schema does not produce it. -/
structure ParsedSections (α : Type) where
  body : Option α
  query : Option α
  params : Option α
deriving DecidableEq, Repr

/-- What `schema.parseAsync({body, query, params})` can do: resolve with the
coerced sections, reject with a `ZodError` carrying every collected issue, or
reject with some other exception. -/
inductive ParseOutcome (α : Type) where
  | ok (parsed : ParsedSections α)
  | zodError (issues : List ZodIssue)
  | thrown (e : String)
deriving DecidableEq, Repr

/-- The observable result of running the `validate` middleware: `next()` with
the (possibly rewritten) request, `next(BadRequestError(...))`, or
`next(error)` for a non-validation exception. -/
inductive ValidateResult (α : Type) where
  | success (req : RequestData α)
  | badRequest (message : String) (errors : List FieldError)
  | thrown (e : String)
deriving DecidableEq, Repr

/-- `e.path.join(".")`: the path components separated by dots. -/
def joinDot : List String → String
  | [] => ""
  | [x] => x
  | x :: y :: xs => x ++ "." ++ joinDot (y :: xs)

/-- The mapping applied to each Zod issue:
`{ field: e.path.join("."), message: e.message, code: e.code }`. -/
def issueToFieldError (e : ZodIssue) : FieldError :=
  { field := joinDot e.path, message := e.message, code := e.code }

/-- `if (parsed.section) req.section = parsed.section` — the section is
replaced only when present and truthy. -/
def keepOr {α : Type} (truthy : α → Bool) (parsed : Option α) (orig : α) : α :=
  match parsed with
  | some v => if truthy v then v else orig
  | none => orig

/-- The `validate` middleware over an abstract schema: parse the three
sections at once; on success overwrite each truthy parsed section; on a
`ZodError` map every issue to a field error and fail once with a single
`BadRequestError`; rethrow anything else unchanged. -/
def validate {α : Type} (truthy : α → Bool)
    (schema : RequestData α → ParseOutcome α) (req : RequestData α) :
    ValidateResult α :=
  match schema req with
  | ParseOutcome.ok parsed =>
    ValidateResult.success
      { body := keepOr truthy parsed.body req.body,
        query := keepOr truthy parsed.query req.query,
        params := keepOr truthy parsed.params req.params }
  | ParseOutcome.zodError issues =>
    ValidateResult.badRequest "Validation failed. Please check your input."
      (issues.map issueToFieldError)
  | ParseOutcome.thrown e => ValidateResult.thrown e

/-! ## Sample data used by the witnesses -/

/-- A user owning `author1` and `book1`, with `author1` favorited. -/
def userA : User :=
  { id := "a", email := "a@x.com", password := "hashA", name := some "Alice",
    createdAt := 1, updatedAt := 1,
    favoriteAuthorIds := ["auth1"], favoriteBookIds := [] }

/-- A second user owning nothing, with an empty favorite set. -/
def userB : User :=
  { id := "b", email := "b@x.com", password := "hashB", name := none,
    createdAt := 2, updatedAt := 2, favoriteAuthorIds := [], favoriteBookIds := [] }

/-- An author created by `userA` and favorited by `userA`. -/
def author1 : Author :=
  { id := "auth1", name := "Orwell", bio := none, createdAt := 1, updatedAt := 1,
    favoritedByIds := ["a"], createdById := "a" }

/-- A second author created by `userA`, not favorited by anyone. -/
def author2 : Author :=
  { id := "auth2", name := "Kafka", bio := some "Prague", createdAt := 2,
    updatedAt := 2, favoritedByIds := [], createdById := "a" }

/-- A book created by `userA`. -/
def book1 : Book :=
  { id := "book1", title := "1984", isbn := some "9780", publishedDate := none,
    createdAt := 1, updatedAt := 1, favoritedByIds := [], createdById := "a",
    authorIds := ["auth1"] }

/-- The concrete database snapshot used by the witnesses. -/
def sampleStore : Store :=
  { users := [userA, userB], authors := [author1, author2], books := [book1] }

/-- A database sort collaborator that returns rows unchanged (the claims never
depend on the engine's comparison semantics). -/
def dbSortId {α : Type} : String × SortDir → List α → List α := fun _ l => l

/-! ## Theorems -/

/-- C10: every DAO lookup given an empty-string key short-circuits without
touching the store — `findAuthorById`, `findBookById`, `findUserById`, and
`findUserByEmail` return null for an empty id or email, `findAuthorsByName`
and `findBooksByTitle` return the empty list for an empty name or title, and
an empty id surfaces to service callers as a `NotFoundError`. -/
theorem claim_C10_empty_key_short_circuit (s : Store) (uid cid : Option String)
    (lim : Nat) :
    AuthorDao.findAuthorById s "" = none ∧
    BookDao.findBookById s "" uid = none ∧
    UserDao.findUserById s "" = none ∧
    UserDao.findUserByEmail s "" = none ∧
    AuthorDao.findAuthorsByName s "" cid lim = [] ∧
    BookDao.findBooksByTitle s "" cid lim = [] ∧
    AuthorService.getAuthorById s "" =
      Except.error (ApiErr.notFound ErrorMessages.AUTHOR_NOT_FOUND) ∧
    BookService.getBookById s "" uid =
      Except.error (ApiErr.notFound ErrorMessages.BOOK_NOT_FOUND) :=
  ⟨rfl, rfl, rfl, rfl, rfl, rfl, rfl, rfl⟩

/-- C2: fetch-by-id of an Author or Book by an authenticated caller — a
missing id fails `NotFoundError`, an existing resource not created by the
caller fails `ForbiddenError`, the creator gets the resource back, and the two
failures are distinct values of the error type. -/
theorem claim_C2_fetch_by_id_ownership (s : Store) (uid rid : String) :
    (AuthorDao.findAuthorById s rid = none →
      AuthorController.getAuthorById s uid rid =
        Except.error (ApiErr.notFound ErrorMessages.AUTHOR_NOT_FOUND)) ∧
    (∀ a, AuthorDao.findAuthorById s rid = some a → a.createdById ≠ uid →
      AuthorController.getAuthorById s uid rid =
        Except.error (ApiErr.forbidden ErrorMessages.UNAUTHORIZED_ACTION)) ∧
    (∀ a, AuthorDao.findAuthorById s rid = some a → a.createdById = uid →
      uid ≠ "" → AuthorController.getAuthorById s uid rid = Except.ok a) ∧
    (BookDao.findBookById s rid (some uid) = none →
      BookController.getBookById s uid rid =
        Except.error (ApiErr.notFound ErrorMessages.BOOK_NOT_FOUND)) ∧
    (∀ b, BookDao.findBookById s rid (some uid) = some b →
      b.book.createdById ≠ uid →
      BookController.getBookById s uid rid =
        Except.error (ApiErr.forbidden ErrorMessages.UNAUTHORIZED_ACTION)) ∧
    (∀ b, BookDao.findBookById s rid (some uid) = some b →
      b.book.createdById = uid → uid ≠ "" →
      BookController.getBookById s uid rid = Except.ok b) ∧
    (∀ m m', ApiErr.notFound m ≠ ApiErr.forbidden m') := by
  refine ⟨?_, ?_, ?_, ?_, ?_, ?_, ?_⟩
  · intro h
    simp [AuthorController.getAuthorById, AuthorService.getAuthorById, h]
  · intro a h hne
    simp [AuthorController.getAuthorById, AuthorService.getAuthorById, h, hne]
  · intro a h heq hu
    simp [AuthorController.getAuthorById, AuthorService.getAuthorById, h, heq,
      String.isEmpty_iff, hu]
  · intro h
    simp [BookController.getBookById, BookService.getBookById, h]
  · intro b h hne
    simp [BookController.getBookById, BookService.getBookById, h, hne]
  · intro b h heq hu
    simp [BookController.getBookById, BookService.getBookById, h, heq,
      String.isEmpty_iff, hu]
  · intro m m'
    exact fun hc => ApiErr.noConfusion hc

/-- Witness for C2 at the concrete store: the creator fetches `author1`, the
second user is refused with `Forbidden`, and a nonexistent id gives
`NotFound`. -/
theorem claim_C2_fetch_by_id_ownership_witness :
    AuthorController.getAuthorById sampleStore "a" "auth1" = Except.ok author1 ∧
    AuthorController.getAuthorById sampleStore "b" "auth1" =
      Except.error (ApiErr.forbidden ErrorMessages.UNAUTHORIZED_ACTION) ∧
    AuthorController.getAuthorById sampleStore "a" "nope" =
      Except.error (ApiErr.notFound ErrorMessages.AUTHOR_NOT_FOUND) ∧
    BookController.getBookById sampleStore "a" "book1" =
      Except.ok ⟨book1, some false⟩ :=
  ⟨(claim_C2_fetch_by_id_ownership sampleStore "a" "auth1").2.2.1 author1 (by decide)
      (by decide) (by decide),
   (claim_C2_fetch_by_id_ownership sampleStore "b" "auth1").2.1 author1 (by decide)
      (by decide),
   (claim_C2_fetch_by_id_ownership sampleStore "a" "nope").1 (by decide),
   (claim_C2_fetch_by_id_ownership sampleStore "a" "book1").2.2.2.2.2.1
      ⟨book1, some false⟩ (by decide) (by decide) (by decide)⟩

/-- C4: `verifyToken` is a total function that returns null whenever the
secret is missing or the library verification fails for any reason (expired
token, malformed token or wrong signature, unexpected error), and returns the
decoded payload exactly when the secret is present and verification
succeeds. -/
theorem claim_C4_verify_token_total (jwtVerify : String → String → JwtVerifyOutcome)
    (secret token : String) :
    (secret = "" → verifyToken jwtVerify secret token = none) ∧
    (∀ m, jwtVerify token secret = JwtVerifyOutcome.expired m →
      verifyToken jwtVerify secret token = none) ∧
    (∀ m, jwtVerify token secret = JwtVerifyOutcome.invalid m →
      verifyToken jwtVerify secret token = none) ∧
    (jwtVerify token secret = JwtVerifyOutcome.unexpected →
      verifyToken jwtVerify secret token = none) ∧
    (∀ p, verifyToken jwtVerify secret token = some p ↔
      secret ≠ "" ∧ jwtVerify token secret = JwtVerifyOutcome.ok p) := by
  refine ⟨?_, ?_, ?_, ?_, ?_⟩
  · intro h
    subst h
    rfl
  · intro m h
    unfold verifyToken
    split
    · rfl
    · rw [h]
  · intro m h
    unfold verifyToken
    split
    · rfl
    · rw [h]
  · intro h
    unfold verifyToken
    split
    · rfl
    · rw [h]
  · intro p
    constructor
    · intro h
      unfold verifyToken at h
      by_cases hs : secret.isEmpty
      · rw [if_pos hs] at h
        exact absurd h (by simp)
      · refine ⟨by simpa [String.isEmpty_iff] using hs, ?_⟩
        rw [if_neg hs] at h
        cases hv : jwtVerify token secret <;> rw [hv] at h <;> simp_all
    · rintro ⟨hs, hv⟩
      have hse : secret.isEmpty = false := by
        rw [Bool.eq_false_iff]
        intro hcontra
        exact hs ((String.isEmpty_iff secret).mp hcontra)
      unfold verifyToken
      rw [hse]
      simp [hv]

/-- Witness for C4 with a concrete verifier behaviour. -/
theorem claim_C4_verify_token_total_witness :
    verifyToken (fun _ _ => JwtVerifyOutcome.invalid "bad signature") "s" "garbage"
      = none ∧
    verifyToken (fun _ _ => JwtVerifyOutcome.expired "jwt expired") "s" "old" = none ∧
    verifyToken (fun _ _ => JwtVerifyOutcome.ok ⟨"a", "a@x.com"⟩) "" "tok" = none ∧
    (verifyToken (fun _ _ => JwtVerifyOutcome.ok ⟨"a", "a@x.com"⟩) "s" "tok"
      = some ⟨"a", "a@x.com"⟩ ↔
      ("s" : String) ≠ "" ∧ JwtVerifyOutcome.ok ⟨"a", "a@x.com"⟩
        = JwtVerifyOutcome.ok (⟨"a", "a@x.com"⟩ : JwtPayload)) :=
  ⟨(claim_C4_verify_token_total _ "s" "garbage").2.2.1 "bad signature" rfl,
   (claim_C4_verify_token_total _ "s" "old").2.1 "jwt expired" rfl,
   (claim_C4_verify_token_total _ "" "tok").1 rfl,
   (claim_C4_verify_token_total (fun _ _ => JwtVerifyOutcome.ok ⟨"a", "a@x.com"⟩)
      "s" "tok").2.2.2.2 ⟨"a", "a@x.com"⟩⟩

/-- C5: on a validation failure the middleware does not stop at the first
invalid field — every issue of the `ZodError` (which spans body, query, and
params at once) is mapped, in order, to a `{field, message, code}` entry whose
field is the dot-joined path (section name first), and all of them are
attached to one single `BadRequestError`; any non-validation exception
propagates unchanged; on success each section produced by the schema replaces
the request's original section. -/
theorem claim_C5_validation_collects_all {α : Type} (truthy : α → Bool)
    (schema : RequestData α → ParseOutcome α) (req : RequestData α) :
    (∀ issues, schema req = ParseOutcome.zodError issues →
      validate truthy schema req =
        ValidateResult.badRequest "Validation failed. Please check your input."
          (issues.map issueToFieldError)) ∧
    (∀ sec rest m c, rest ≠ [] →
      issueToFieldError ⟨sec :: rest, m, c⟩ =
        ⟨sec ++ "." ++ joinDot rest, m, c⟩) ∧
    (∀ e, schema req = ParseOutcome.thrown e →
      validate truthy schema req = ValidateResult.thrown e) ∧
    (∀ parsed, schema req = ParseOutcome.ok parsed →
      validate truthy schema req = ValidateResult.success
        ⟨keepOr truthy parsed.body req.body, keepOr truthy parsed.query req.query,
         keepOr truthy parsed.params req.params⟩) ∧
    (∀ (o : Option α) (v orig : α), o = some v → truthy v = true →
      keepOr truthy o orig = v) ∧
    (∀ orig : α, keepOr truthy (none : Option α) orig = orig) := by
  refine ⟨?_, ?_, ?_, ?_, ?_, ?_⟩
  · intro issues h
    simp [validate, h]
  · intro sec rest m c hne
    cases rest with
    | nil => exact absurd rfl hne
    | cons y xs => rfl
  · intro e h
    simp [validate, h]
  · intro parsed h
    simp [validate, h]
  · intro o v orig ho ht
    subst ho
    simp [keepOr, ht]
  · intro orig
    rfl

/-- Witness for C5: a schema that rejects with two issues across two sections
yields a single bad-request failure listing both, with section-prefixed
dotted fields. -/
theorem claim_C5_validation_collects_all_witness :
    validate (fun n : Nat => n != 0)
      (fun _ => ParseOutcome.zodError
        [⟨["body", "name"], "Required", "invalid_type"⟩,
         ⟨["query", "limit"], "Expected number, received nan", "invalid_type"⟩])
      ⟨0, 0, 0⟩ =
      ValidateResult.badRequest "Validation failed. Please check your input."
        [⟨"body.name", "Required", "invalid_type"⟩,
         ⟨"query.limit", "Expected number, received nan", "invalid_type"⟩] :=
  (claim_C5_validation_collects_all (fun n : Nat => n != 0) _ ⟨0, 0, 0⟩).1
    [⟨["body", "name"], "Required", "invalid_type"⟩,
     ⟨["query", "limit"], "Expected number, received nan", "invalid_type"⟩] rfl

/-- C6: the authentication gate — no `Bearer ` prefix or an empty token fails
`UNAUTHENTICATED`; a token the verifier maps to null fails `TOKEN_INVALID`; a
decoded token whose subject matches no user fails with the distinct
`USER_FOR_TOKEN_NOT_FOUND` message; otherwise the resolved user is returned
for attachment to the request. -/
theorem claim_C6_auth_gate_three_steps
    (jwtVerify : String → String → JwtVerifyOutcome) (secret : String)
    (s : Store) (authHeader : Option String) :
    (bearerToken none = "") ∧
    (∀ h, jsStartsWith h "Bearer " = false → bearerToken (some h) = "") ∧
    (bearerToken authHeader = "" →
      protect jwtVerify secret s authHeader =
        Except.error (ApiErr.unauthorized ErrorMessages.UNAUTHENTICATED)) ∧
    (bearerToken authHeader ≠ "" →
      verifyToken jwtVerify secret (bearerToken authHeader) = none →
      protect jwtVerify secret s authHeader =
        Except.error (ApiErr.unauthorized ErrorMessages.TOKEN_INVALID)) ∧
    (∀ p, bearerToken authHeader ≠ "" →
      verifyToken jwtVerify secret (bearerToken authHeader) = some p →
      UserDao.findUserById s p.userId = none →
      protect jwtVerify secret s authHeader =
        Except.error (ApiErr.unauthorized ErrorMessages.USER_FOR_TOKEN_NOT_FOUND)) ∧
    (∀ p u, bearerToken authHeader ≠ "" →
      verifyToken jwtVerify secret (bearerToken authHeader) = some p →
      UserDao.findUserById s p.userId = some u →
      protect jwtVerify secret s authHeader = Except.ok u) ∧
    (ApiErr.unauthorized ErrorMessages.TOKEN_INVALID ≠
      ApiErr.unauthorized ErrorMessages.USER_FOR_TOKEN_NOT_FOUND) := by
  have hne_isEmpty : bearerToken authHeader ≠ "" →
      (bearerToken authHeader).isEmpty = false := by
    intro hne
    rw [Bool.eq_false_iff]
    intro hcontra
    exact hne ((String.isEmpty_iff _).mp hcontra)
  refine ⟨rfl, ?_, ?_, ?_, ?_, ?_, by decide⟩
  · intro h hpre
    simp [bearerToken, hpre]
  · intro h
    rw [protect]
    rw [h]
    rfl
  · intro hne hv
    rw [protect]
    simp only [hne_isEmpty hne, Bool.false_eq_true, if_false, hv]
  · intro p hne hv hu
    rw [protect]
    simp only [hne_isEmpty hne, Bool.false_eq_true, if_false, hv, hu]
  · intro p u hne hv hu
    rw [protect]
    simp only [hne_isEmpty hne, Bool.false_eq_true, if_false, hv, hu]

/-- Witness for C6 at the concrete store: a missing prefix, a rejected token,
a stale subject, and a live subject each take their step's outcome. -/
theorem claim_C6_auth_gate_three_steps_witness :
    protect (fun _ _ => JwtVerifyOutcome.ok ⟨"a", "a@x.com"⟩) "s" sampleStore
      (some "Token abc") =
      Except.error (ApiErr.unauthorized ErrorMessages.UNAUTHENTICATED) ∧
    protect (fun _ _ => JwtVerifyOutcome.invalid "bad") "s" sampleStore
      (some "Bearer abc") =
      Except.error (ApiErr.unauthorized ErrorMessages.TOKEN_INVALID) ∧
    protect (fun _ _ => JwtVerifyOutcome.ok ⟨"ghost", "g@x.com"⟩) "s" sampleStore
      (some "Bearer abc") =
      Except.error (ApiErr.unauthorized ErrorMessages.USER_FOR_TOKEN_NOT_FOUND) ∧
    protect (fun _ _ => JwtVerifyOutcome.ok ⟨"a", "a@x.com"⟩) "s" sampleStore
      (some "Bearer abc") = Except.ok userA :=
  ⟨(claim_C6_auth_gate_three_steps _ "s" sampleStore (some "Token abc")).2.2.1
      (by decide),
   (claim_C6_auth_gate_three_steps _ "s" sampleStore (some "Bearer abc")).2.2.2.1
      (by decide) (by decide),
   (claim_C6_auth_gate_three_steps _ "s" sampleStore (some "Bearer abc")).2.2.2.2.1
      ⟨"ghost", "g@x.com"⟩ (by decide) (by decide) (by decide),
   (claim_C6_auth_gate_three_steps _ "s" sampleStore (some "Bearer abc")).2.2.2.2.2.1
      ⟨"a", "a@x.com"⟩ userA (by decide) (by decide) (by decide)⟩

/-- C8: a failed login leaks nothing about whether the email is registered —
an unknown email and a wrong password produce the very same
`UnauthorizedError(INVALID_CREDENTIALS)` value, so any two failing attempts
(one of each kind) are indistinguishable. -/
theorem claim_C8_login_indistinguishable (bcryptCompare : String → String → Bool)
    (jwtSign : JwtPayload → String → String) (secret : String) (s : Store)
    (email password : String) :
    (UserDao.findUserByEmail s email = none →
      AuthService.loginUser bcryptCompare jwtSign secret s email password =
        Except.error (Thrown.api
          (ApiErr.unauthorized ErrorMessages.INVALID_CREDENTIALS))) ∧
    (∀ u, UserDao.findUserByEmail s email = some u →
      comparePassword bcryptCompare password u.password = false →
      AuthService.loginUser bcryptCompare jwtSign secret s email password =
        Except.error (Thrown.api
          (ApiErr.unauthorized ErrorMessages.INVALID_CREDENTIALS))) ∧
    (∀ (bc2 : String → String → Bool) (js2 : JwtPayload → String → String)
      (secret2 : String) (s2 : Store) (email2 password2 : String) (u2 : User),
      UserDao.findUserByEmail s email = none →
      UserDao.findUserByEmail s2 email2 = some u2 →
      comparePassword bc2 password2 u2.password = false →
      AuthService.loginUser bcryptCompare jwtSign secret s email password =
        AuthService.loginUser bc2 js2 secret2 s2 email2 password2) := by
  refine ⟨?_, ?_, ?_⟩
  · intro h
    simp [AuthService.loginUser, h]
  · intro u h hc
    simp [AuthService.loginUser, h, hc]
  · intro bc2 js2 secret2 s2 email2 password2 u2 h1 h2 hc
    simp [AuthService.loginUser, h1, h2, hc]

/-- Witness for C8: at the concrete store, a login with an unregistered email
and a login with a registered email but failing comparison produce equal
results. -/
theorem claim_C8_login_indistinguishable_witness :
    AuthService.loginUser (fun _ _ => false) (fun _ _ => "tok") "s" sampleStore
      "nobody@x.com" "pw" =
      AuthService.loginUser (fun _ _ => false) (fun _ _ => "tok") "s" sampleStore
        "a@x.com" "wrong" :=
  (claim_C8_login_indistinguishable (fun _ _ => false) (fun _ _ => "tok") "s"
      sampleStore "nobody@x.com" "pw").2.2 (fun _ _ => false) (fun _ _ => "tok")
    "s" sampleStore "a@x.com" "wrong" userA (by decide) (by decide) (by decide)

/-- C3: favorite Add fails `NotFound` when the user or the author is missing,
`Forbidden` when the author is not owned by the user, and
`BadRequest(ITEM_ALREADY_IN_FAVORITES)` when already present — otherwise the
id is appended to the favorite set; Remove runs the same existence and
ownership checks and fails `BadRequest(ITEM_NOT_IN_FAVORITES)` when absent —
neither duplicate Add nor Remove-when-absent is a silent no-op. -/
theorem claim_C3_favorites_add_remove (s : Store) (userId authorId : String) :
    (prismaFindUserById s userId = none →
      FavoriteService.addAuthorToFavorites s userId authorId =
        Except.error (ApiErr.notFound ErrorMessages.USER_NOT_FOUND) ∧
      FavoriteService.removeAuthorFromFavorites s userId authorId =
        Except.error (ApiErr.notFound ErrorMessages.USER_NOT_FOUND)) ∧
    (∀ u, prismaFindUserById s userId = some u →
      AuthorDao.findAuthorById s authorId = none →
      FavoriteService.addAuthorToFavorites s userId authorId =
        Except.error (ApiErr.notFound ErrorMessages.AUTHOR_NOT_FOUND) ∧
      FavoriteService.removeAuthorFromFavorites s userId authorId =
        Except.error (ApiErr.notFound ErrorMessages.AUTHOR_NOT_FOUND)) ∧
    (∀ u a, prismaFindUserById s userId = some u →
      AuthorDao.findAuthorById s authorId = some a → a.createdById ≠ userId →
      FavoriteService.addAuthorToFavorites s userId authorId =
        Except.error (ApiErr.forbidden ErrorMessages.UNAUTHORIZED_ACTION) ∧
      FavoriteService.removeAuthorFromFavorites s userId authorId =
        Except.error (ApiErr.forbidden ErrorMessages.UNAUTHORIZED_ACTION)) ∧
    (∀ u a, prismaFindUserById s userId = some u →
      AuthorDao.findAuthorById s authorId = some a → a.createdById = userId →
      u.favoriteAuthorIds.contains authorId = true →
      FavoriteService.addAuthorToFavorites s userId authorId =
        Except.error (ApiErr.badRequest
          (ErrorMessages.ITEM_ALREADY_IN_FAVORITES "Author") [])) ∧
    (∀ u a, prismaFindUserById s userId = some u →
      AuthorDao.findAuthorById s authorId = some a → a.createdById = userId →
      u.favoriteAuthorIds.contains authorId = false →
      FavoriteService.addAuthorToFavorites s userId authorId =
        Except.ok { u with favoriteAuthorIds := u.favoriteAuthorIds ++ [authorId] }) ∧
    (∀ u a, prismaFindUserById s userId = some u →
      AuthorDao.findAuthorById s authorId = some a → a.createdById = userId →
      u.favoriteAuthorIds.contains authorId = false →
      FavoriteService.removeAuthorFromFavorites s userId authorId =
        Except.error (ApiErr.badRequest
          (ErrorMessages.ITEM_NOT_IN_FAVORITES "Author") [])) ∧
    (∀ u a, prismaFindUserById s userId = some u →
      AuthorDao.findAuthorById s authorId = some a → a.createdById = userId →
      u.favoriteAuthorIds.contains authorId = true →
      FavoriteService.removeAuthorFromFavorites s userId authorId =
        Except.ok { u with favoriteAuthorIds :=
          u.favoriteAuthorIds.filter (fun id => id != authorId) }) := by
  refine ⟨?_, ?_, ?_, ?_, ?_, ?_, ?_⟩
  · intro h
    constructor <;>
      simp [FavoriteService.addAuthorToFavorites,
        FavoriteService.removeAuthorFromFavorites, h]
  · intro u hu ha
    constructor <;>
      simp [FavoriteService.addAuthorToFavorites,
        FavoriteService.removeAuthorFromFavorites, hu, ha]
  · intro u a hu ha hne
    constructor <;>
      simp [FavoriteService.addAuthorToFavorites,
        FavoriteService.removeAuthorFromFavorites, hu, ha, hne]
  · intro u a hu ha heq hmem
    have hm : authorId ∈ u.favoriteAuthorIds := by simpa using hmem
    simp [FavoriteService.addAuthorToFavorites, hu, ha, heq, hm]
  · intro u a hu ha heq hmem
    have hm : authorId ∉ u.favoriteAuthorIds := by simpa using hmem
    simp [FavoriteService.addAuthorToFavorites, UserDao.addAuthorToFavorites,
      hu, ha, heq, hm]
  · intro u a hu ha heq hmem
    have hm : authorId ∉ u.favoriteAuthorIds := by simpa using hmem
    simp [FavoriteService.removeAuthorFromFavorites, hu, ha, heq, hm]
  · intro u a hu ha heq hmem
    have hm : authorId ∈ u.favoriteAuthorIds := by simpa using hmem
    simp [FavoriteService.removeAuthorFromFavorites,
      UserDao.removeAuthorFromFavorites, hu, ha, heq, hm]

/-- Witness for C3 at the concrete store: duplicate Add and absent Remove are
errors, a fresh Add appends, a present Remove filters out. -/
theorem claim_C3_favorites_add_remove_witness :
    FavoriteService.addAuthorToFavorites sampleStore "a" "auth1" =
      Except.error (ApiErr.badRequest
        (ErrorMessages.ITEM_ALREADY_IN_FAVORITES "Author") []) ∧
    FavoriteService.addAuthorToFavorites sampleStore "a" "auth2" =
      Except.ok { userA with favoriteAuthorIds := ["auth1", "auth2"] } ∧
    FavoriteService.removeAuthorFromFavorites sampleStore "a" "auth2" =
      Except.error (ApiErr.badRequest
        (ErrorMessages.ITEM_NOT_IN_FAVORITES "Author") []) ∧
    FavoriteService.removeAuthorFromFavorites sampleStore "a" "auth1" =
      Except.ok { userA with favoriteAuthorIds := [] } ∧
    FavoriteService.addAuthorToFavorites sampleStore "b" "auth1" =
      Except.error (ApiErr.forbidden ErrorMessages.UNAUTHORIZED_ACTION) ∧
    FavoriteService.addAuthorToFavorites sampleStore "ghost" "auth1" =
      Except.error (ApiErr.notFound ErrorMessages.USER_NOT_FOUND) :=
  ⟨(claim_C3_favorites_add_remove sampleStore "a" "auth1").2.2.2.1 userA author1
      (by decide) (by decide) (by decide) (by decide),
   (claim_C3_favorites_add_remove sampleStore "a" "auth2").2.2.2.2.1 userA author2
      (by decide) (by decide) (by decide) (by decide),
   (claim_C3_favorites_add_remove sampleStore "a" "auth2").2.2.2.2.2.1 userA author2
      (by decide) (by decide) (by decide) (by decide),
   (claim_C3_favorites_add_remove sampleStore "a" "auth1").2.2.2.2.2.2 userA author1
      (by decide) (by decide) (by decide) (by decide),
   ((claim_C3_favorites_add_remove sampleStore "b" "auth1").2.2.1 userB author1
      (by decide) (by decide) (by decide)).1,
   ((claim_C3_favorites_add_remove sampleStore "ghost" "auth1").1 (by decide)).1⟩

/-- C9: no authentication operation returns the stored password hash — the
success values of `registerUser` and `loginUser` carry exactly
`{id, email, name, createdAt, updatedAt}` with a null name replaced by the
empty string, and `getMe` returns the user with the password key removed. -/
theorem claim_C9_no_password_leak (bcryptHash : String → String)
    (bcryptCompare : String → String → Bool)
    (jwtSign : JwtPayload → String → String) (secret : String) (s : Store)
    (newId : String) (now : Nat) (email password : String) (name : Option String)
    (uid : String) :
    (∀ out tok, AuthService.registerUser bcryptHash jwtSign secret s newId now
        email password name = Except.ok (out, tok) →
      out = { id := newId, email := email, name := name.getD "",
              createdAt := now, updatedAt := now }) ∧
    (∀ out tok, AuthService.loginUser bcryptCompare jwtSign secret s email
        password = Except.ok (out, tok) →
      ∃ u, UserDao.findUserByEmail s email = some u ∧
        out = generateSimpleUserObject u) ∧
    (∀ r, AuthService.getMe s uid = Except.ok r →
      ∃ u, UserDao.findUserById s uid = some u ∧ r = omitPasswordFromResult u) ∧
    (∀ u, generateSimpleUserObject u =
      { id := u.id, email := u.email, name := u.name.getD "",
        createdAt := u.createdAt, updatedAt := u.updatedAt }) ∧
    (∀ u, omitPasswordFromResult u =
      { id := u.id, email := u.email, name := u.name, createdAt := u.createdAt,
        updatedAt := u.updatedAt, favoriteAuthorIds := u.favoriteAuthorIds,
        favoriteBookIds := u.favoriteBookIds }) := by
  refine ⟨?_, ?_, ?_, fun u => rfl, fun u => rfl⟩
  · intro out tok hok
    cases hfind : UserDao.findUserByEmail s email with
    | some u => simp [AuthService.registerUser, hfind] at hok
    | none =>
      by_cases hp : password.isEmpty
      · simp [AuthService.registerUser, hfind, hashPassword, hp] at hok
      · by_cases hs2 : secret.isEmpty
        · simp [AuthService.registerUser, hfind, hashPassword, hp, signToken,
            hs2] at hok
        · simp [AuthService.registerUser, hfind, hashPassword, hp, signToken,
            hs2] at hok
          rw [← hok.1]
          rfl
  · intro out tok hok
    cases hfind : UserDao.findUserByEmail s email with
    | none => simp [AuthService.loginUser, hfind] at hok
    | some u =>
      refine ⟨u, rfl, ?_⟩
      by_cases hc : comparePassword bcryptCompare password u.password
      · by_cases hs2 : secret.isEmpty
        · simp [AuthService.loginUser, hfind, hc, signToken, hs2] at hok
        · simp [AuthService.loginUser, hfind, hc, signToken, hs2] at hok
          exact hok.1.symm
      · simp [AuthService.loginUser, hfind, hc] at hok
  · intro r hok
    cases hfind : UserDao.findUserById s uid with
    | none => simp [AuthService.getMe, hfind] at hok
    | some u =>
      refine ⟨u, rfl, ?_⟩
      simp [AuthService.getMe, hfind] at hok
      exact hok.symm

/-- Witness for C9: a concrete registration, login, and profile fetch each
return the password-free shapes. -/
theorem claim_C9_no_password_leak_witness :
    AuthService.registerUser (fun p => "H" ++ p) (fun _ _ => "tok") "s"
        sampleStore "c" 5 "c@x.com" "pw" none =
      Except.ok
        ({ id := "c", email := "c@x.com", name := "", createdAt := 5,
           updatedAt := 5 }, "tok") ∧
    (({ id := "c", email := "c@x.com", name := "", createdAt := 5,
        updatedAt := 5 } : UserOutput) =
      { id := "c", email := "c@x.com", name := (none : Option String).getD "",
        createdAt := 5, updatedAt := 5 }) ∧
    (∃ u, UserDao.findUserById sampleStore "b" = some u ∧
      omitPasswordFromResult userB = omitPasswordFromResult u) :=
  ⟨by decide,
   (claim_C9_no_password_leak (fun p => "H" ++ p) (fun _ _ => true)
      (fun _ _ => "tok") "s" sampleStore "c" 5 "c@x.com" "pw" none "b").1
     { id := "c", email := "c@x.com", name := "", createdAt := 5, updatedAt := 5 }
     "tok" (by decide),
   ((claim_C9_no_password_leak (fun p => "H" ++ p) (fun _ _ => true)
      (fun _ _ => "tok") "s" sampleStore "c" 5 "c@x.com" "pw" none "b").2.2.1
     (omitPasswordFromResult userB) (by decide))⟩

/-- C7: an invalid `sortBy` (absent, direction other than asc/desc, or a field
outside the model's actual field list) never errors — the resulting listing is
identical to the default `createdAt` descending ordering; a well-formed
`"<field>:<asc|desc>"` with an allow-listed field is passed to the database
sort as that field and direction. -/
theorem claim_C7_sortby_fallback
    (dbSortA : String × SortDir → List Author → List Author)
    (dbSortB : String × SortDir → List Book → List Book)
    (s : Store) (page limit : Nat) (search cid aid ruid : Option String) :
    (resolveOrderBy authorScalarFields none = ("createdAt", SortDir.desc) ∧
     resolveOrderBy bookScalarFields none = ("createdAt", SortDir.desc)) ∧
    (∀ (fields : List String) (sb : String),
      (((jsSplit ':' sb).getD 1 "" ≠ "asc" ∧ (jsSplit ':' sb).getD 1 "" ≠ "desc") ∨
        fields.contains ((jsSplit ':' sb).getD 0 "") = false) →
      resolveOrderBy fields (some sb) = ("createdAt", SortDir.desc)) ∧
    (∀ sb, resolveOrderBy authorScalarFields (some sb) = ("createdAt", SortDir.desc) →
      AuthorDao.findAllAuthors dbSortA s page limit (some sb) search cid =
        AuthorDao.findAllAuthors dbSortA s page limit none search cid) ∧
    (∀ sb, resolveOrderBy bookScalarFields (some sb) = ("createdAt", SortDir.desc) →
      BookDao.findAllBooks dbSortB s page limit (some sb) search cid aid ruid =
        BookDao.findAllBooks dbSortB s page limit none search cid aid ruid) ∧
    (∀ f, f ∈ authorScalarFields →
      resolveOrderBy authorScalarFields (some (f ++ ":asc")) = (f, SortDir.asc) ∧
      resolveOrderBy authorScalarFields (some (f ++ ":desc")) = (f, SortDir.desc)) ∧
    (∀ f, f ∈ bookScalarFields →
      resolveOrderBy bookScalarFields (some (f ++ ":asc")) = (f, SortDir.asc) ∧
      resolveOrderBy bookScalarFields (some (f ++ ":desc")) = (f, SortDir.desc)) ∧
    (∀ sb f d, resolveOrderBy authorScalarFields (some sb) = (f, d) →
      AuthorDao.findAllAuthors dbSortA s page limit (some sb) search cid =
        (((dbSortA (f, d) (s.authors.filter (authorWhere cid search))).drop
            ((page - 1) * limit)).take limit,
          (s.authors.filter (authorWhere cid search)).length)) := by
  refine ⟨⟨rfl, rfl⟩, ?_, ?_, ?_, ?_, ?_, ?_⟩
  · intro fields sb h
    rcases h with ⟨h1, h2⟩ | h3
    · unfold resolveOrderBy
      by_cases hsb : sb.isEmpty
      · simp [hsb]
      · simp only [List.getD_eq_getElem?_getD] at h1 h2
        simp [hsb, h1, h2]
    · have hm : (jsSplit ':' sb).getD 0 "" ∉ fields := by simpa using h3
      unfold resolveOrderBy
      by_cases hsb : sb.isEmpty
      · simp [hsb]
      · simp only [List.getD_eq_getElem?_getD] at hm
        simp [hsb, hm]
  · intro sb h
    have hnone : resolveOrderBy authorScalarFields none =
        ("createdAt", SortDir.desc) := rfl
    simp only [AuthorDao.findAllAuthors, h, hnone]
  · intro sb h
    have hnone : resolveOrderBy bookScalarFields none =
        ("createdAt", SortDir.desc) := rfl
    simp only [BookDao.findAllBooks, h, hnone]
  · intro f hf
    simp only [authorScalarFields, List.mem_cons, List.mem_singleton,
      List.not_mem_nil, or_false] at hf
    rcases hf with rfl | rfl | rfl | rfl | rfl | rfl | rfl <;>
      exact ⟨by decide, by decide⟩
  · intro f hf
    simp only [bookScalarFields, List.mem_cons, List.mem_singleton,
      List.not_mem_nil, or_false] at hf
    rcases hf with rfl | rfl | rfl | rfl | rfl | rfl | rfl | rfl <;>
      exact ⟨by decide, by decide⟩
  · intro sb f d h
    simp [AuthorDao.findAllAuthors, h]

/-- Witness for C7: a field outside the allow-list and a bad direction both
fall back; an allow-listed field with a valid direction is honoured; the
listing with the invalid `sortBy` equals the default listing. -/
theorem claim_C7_sortby_fallback_witness :
    resolveOrderBy authorScalarFields (some "bogus:asc") =
      ("createdAt", SortDir.desc) ∧
    resolveOrderBy authorScalarFields (some "name:upwards") =
      ("createdAt", SortDir.desc) ∧
    resolveOrderBy authorScalarFields (some ("name" ++ ":asc")) =
      ("name", SortDir.asc) ∧
    resolveOrderBy bookScalarFields (some ("title" ++ ":desc")) =
      ("title", SortDir.desc) ∧
    AuthorDao.findAllAuthors dbSortId sampleStore 1 10 (some "bogus:asc")
        none none =
      AuthorDao.findAllAuthors dbSortId sampleStore 1 10 none none none :=
  ⟨(claim_C7_sortby_fallback dbSortId dbSortId sampleStore 1 10 none none none
      none).2.1 authorScalarFields "bogus:asc" (Or.inr (by decide)),
   (claim_C7_sortby_fallback dbSortId dbSortId sampleStore 1 10 none none none
      none).2.1 authorScalarFields "name:upwards" (Or.inl (by decide)),
   ((claim_C7_sortby_fallback dbSortId dbSortId sampleStore 1 10 none none none
      none).2.2.2.2.1 "name" (by decide)).1,
   ((claim_C7_sortby_fallback dbSortId dbSortId sampleStore 1 10 none none none
      none).2.2.2.2.2.1 "title" (by decide)).2,
   (claim_C7_sortby_fallback dbSortId dbSortId sampleStore 1 10 none none none
      none).2.2.1 "bogus:asc" (by decide)⟩

/-- C1 (amended): the author and book listings guard division by zero —
`totalPages` is `ceil(totalItems / limit)` for positive `limit` and `0` for
`limit = 0`; the favorite-authors listing computes `totalPages` the same way
for positive `limit`, and returns `0` when the favorite set is empty, but on
the non-empty path it computes `Math.ceil(totalItems / limit)` with no guard,
so `limit = 0` yields the JavaScript value `Infinity` (or `NaN`) instead of
`0`. -/
theorem claim_C1_total_pages_guard
    (dbSortA : String × SortDir → List Author → List Author)
    (dbSortB : String × SortDir → List Book → List Book)
    (s : Store) (q : PaginationQuery) (aid ruid : Option String)
    (userId : String) :
    ((AuthorService.getAllAuthors dbSortA s q ruid).2.totalPages =
      (if 0 < q.limit.getD DEFAULT_PAGE_LIMIT then
        JsNum.num (ceilNat (AuthorService.getAllAuthors dbSortA s q ruid).2.totalItems
          (q.limit.getD DEFAULT_PAGE_LIMIT))
      else JsNum.num 0)) ∧
    ((BookService.getAllBooks dbSortB s q aid ruid).2.totalPages =
      (if 0 < q.limit.getD DEFAULT_PAGE_LIMIT then
        JsNum.num (ceilNat (BookService.getAllBooks dbSortB s q aid ruid).2.totalItems
          (q.limit.getD DEFAULT_PAGE_LIMIT))
      else JsNum.num 0)) ∧
    (∀ a b : Nat, 0 < b → jsCeilDiv a b = JsNum.num (ceilNat a b)) ∧
    (∀ u, prismaFindUserById s userId = some u →
      u.favoriteAuthorIds.isEmpty = true →
      ∀ items meta, FavoriteService.getFavoriteAuthors s userId q =
        Except.ok (items, meta) →
      meta.totalPages = JsNum.num 0) ∧
    (∀ u, prismaFindUserById s userId = some u →
      u.favoriteAuthorIds.isEmpty = false →
      ∀ items meta, FavoriteService.getFavoriteAuthors s userId q =
        Except.ok (items, meta) →
      meta.totalPages = jsCeilDiv meta.totalItems (q.limit.getD DEFAULT_PAGE_LIMIT)) := by
  refine ⟨?_, ?_, ?_, ?_, ?_⟩
  · by_cases hl : 0 < q.limit.getD DEFAULT_PAGE_LIMIT <;>
      simp [AuthorService.getAllAuthors, hl]
  · by_cases hl : 0 < q.limit.getD DEFAULT_PAGE_LIMIT <;>
      simp [BookService.getAllBooks, hl]
  · intro a b hb
    simp [jsCeilDiv, Nat.pos_iff_ne_zero.mp hb]
  · intro u hu hfav items meta hok
    simp [FavoriteService.getFavoriteAuthors, hu, hfav] at hok
    rw [← hok.2]
  · intro u hu hfav items meta hok
    simp [FavoriteService.getFavoriteAuthors, hu, hfav] at hok
    rw [← hok.2]

/-- Counterexample for C1 as stated: at the concrete store, the
favorite-authors listing with `limit = 0` and a non-empty favorite set returns
`totalPages = Infinity`, not `0`. -/
theorem claim_C1_total_pages_counterexample :
    FavoriteService.getFavoriteAuthors sampleStore "a"
        { page := some 1, limit := some 0, sortBy := none, search := none } =
      Except.ok
        ([],
          { totalItems := 1, itemCount := 0, itemsPerPage := 0,
            totalPages := JsNum.posInf, currentPage := 1 }) ∧
    JsNum.posInf ≠ JsNum.num 0 :=
  ⟨by decide, by decide⟩

/-- Witness for C1 (amended): a favorite-authors listing with a positive limit
satisfies the ceiling formula. -/
theorem claim_C1_total_pages_guard_witness :
    prismaFindUserById sampleStore "a" = some userA ∧
    userA.favoriteAuthorIds.isEmpty = false ∧
    FavoriteService.getFavoriteAuthors sampleStore "a"
        { page := some 1, limit := some 2, sortBy := none, search := none } =
      Except.ok
        ([⟨author1, true⟩],
          { totalItems := 1, itemCount := 1, itemsPerPage := 2,
            totalPages := JsNum.num 1, currentPage := 1 }) ∧
    ({ totalItems := 1, itemCount := 1, itemsPerPage := 2,
       totalPages := JsNum.num 1, currentPage := 1 } : Meta).totalPages =
      jsCeilDiv ({ totalItems := 1, itemCount := 1, itemsPerPage := 2,
                   totalPages := JsNum.num 1, currentPage := 1 } : Meta).totalItems
        2 :=
  ⟨by decide, by decide, by decide,
   (claim_C1_total_pages_guard dbSortId dbSortId sampleStore
      { page := some 1, limit := some 2, sortBy := none, search := none }
      none none "a").2.2.2.2 userA (by decide) (by decide) [⟨author1, true⟩]
     { totalItems := 1, itemCount := 1, itemsPerPage := 2,
       totalPages := JsNum.num 1, currentPage := 1 } (by decide)⟩

end Beehive
